import Mathlib

/-!
Verification of the BLE HID peripheral (`test/ios/ble-hid-poc.py`): a shallow
embedding of its report encoder, report scheduler, command dispatcher and GATT
attribute tree, together with theorems settling the specification claims.

Conventions of the embedding:
* Python byte values are `Nat` (0..255); signed quantities are `Int`, with the
  Python expression `v & 0xFF` rendered as `(v % 256).toNat` (Python `%` on a
  positive modulus and Lean's `Int.emod` agree: both return a value in
  `[0, 256)`).
* `GLib.timeout_add(d, f)` is rendered as an `Emission` carrying the relative
  fire time `d` in milliseconds; an immediate `send_report` call is an
  emission at time 0.  Nested scheduling (a timeout registered from inside a
  scheduled callback) shifts the inner emission by the outer fire time.
* Python `float` division followed by `round` in `move_mouse` is modelled
  exactly on the underlying rational by `pyDivRound` (banker's rounding,
  half to even); on every input exercised here the float arithmetic is
  exact, so the idealization is faithful.
-/

namespace BareMobile

/-- Python `v & 0xFF` on an `int`: the low byte, always in `[0, 256)`. -/
def byteOf (v : Int) : Nat := (v % 256).toNat

/-- Decode a byte back to the signed value it represents in a HID report
(two's complement). Used only to state theorems about emitted deltas. -/
def sbyte (b : Nat) : Int := if b < 128 then (b : Int) else (b : Int) - 256

/-- `max(-127, min(127, v))` from `move_mouse` (lines 576-577). -/
def clamp127 (v : Int) : Int := max (-127) (min 127 v)

/-- Python 3 `round(num / den)` for `den > 0`, computed exactly on the
rational `num / den`: round half to even.  `f` is the floor of the quotient
(`Int.fdiv` rounds toward negative infinity); the fractional part
`(num - f * den) / den` is compared with `1/2` by comparing
`2 * (num - f * den)` with `den`. -/
def pyDivRound (num den : Int) : Int :=
  let f := num.fdiv den
  let r2 := 2 * (num - f * den)
  if r2 < den then f
  else if den < r2 then f + 1
  else if f % 2 = 0 then f else f + 1

/-- Lookup in an association list with string keys — Python `d[k]` /
`k in d` over the module-level dict tables (no duplicate keys occur). -/
def lookupStr {α : Type} (t : List (String × α)) (k : String) : Option α :=
  (t.find? (fun p => p.1 == k)).map (fun p => p.2)

/-- `CHAR_TO_KEYCODE` (lines 112-130): built from `enumerate` over the
lowercase alphabet (keycodes 0x04..), the digit row `1234567890`
(0x1E..), then the punctuation entries.  Keys are one-character strings,
values `(modifier, keycode)`; the modifier is always 0 here. -/
def CHAR_TO_KEYCODE : List (String × Nat × Nat) :=
  ("abcdefghijklmnopqrstuvwxyz".toList.enum.map
    (fun p => (String.mk [p.2], 0, 0x04 + p.1))) ++
  ("1234567890".toList.enum.map
    (fun p => (String.mk [p.2], 0, 0x1E + p.1))) ++
  [(" ", 0, 0x2C),
   (String.mk [Char.ofNat 0x0A], 0, 0x28),     -- newline
   (String.mk [Char.ofNat 0x09], 0, 0x2B),     -- tab character
   ("-", 0, 0x2D), ("=", 0, 0x2E), ("[", 0, 0x2F), ("]", 0, 0x30),
   (String.mk [Char.ofNat 0x5C], 0, 0x31),     -- backslash
   (";", 0, 0x33),
   (String.mk [Char.ofNat 0x27], 0, 0x34),     -- apostrophe
   (String.mk [Char.ofNat 0x60], 0, 0x35),     -- grave accent
   (",", 0, 0x36), (".", 0, 0x37), ("/", 0, 0x38)]

/-- `SPECIAL_KEYS` (lines 133-156): named keys to `(modifier, usage id)`. -/
def SPECIAL_KEYS : List (String × Nat × Nat) :=
  [("enter", 0, 0x28), ("return", 0, 0x28),
   ("escape", 0, 0x29), ("esc", 0, 0x29),
   ("backspace", 0, 0x2A), ("delete", 0, 0x2A),
   ("tab", 0, 0x2B), ("space", 0, 0x2C), ("capslock", 0, 0x39),
   ("right", 0, 0x4F), ("left", 0, 0x50), ("down", 0, 0x51), ("up", 0, 0x52),
   ("home", 0, 0x4A), ("end", 0, 0x4D),
   ("pageup", 0, 0x4B), ("pagedown", 0, 0x4E),
   ("f1", 0, 0x3A), ("f2", 0, 0x3B), ("f3", 0, 0x3C), ("f4", 0, 0x3D),
   ("f5", 0, 0x3E), ("f6", 0, 0x3F), ("f7", 0, 0x40), ("f8", 0, 0x41),
   ("f9", 0, 0x42), ("f10", 0, 0x43), ("f11", 0, 0x44), ("f12", 0, 0x45),
   ("vo+space", 0x39, 0x2C)]

/-- `SHIFT_CHARS` (lines 158-167): shifted symbol to its unshifted base key. -/
def SHIFT_CHARS : List (String × String) :=
  [("A", "a"), ("B", "b"), ("C", "c"), ("D", "d"), ("E", "e"), ("F", "f"),
   ("G", "g"), ("H", "h"), ("I", "i"), ("J", "j"), ("K", "k"), ("L", "l"),
   ("M", "m"), ("N", "n"), ("O", "o"), ("P", "p"), ("Q", "q"), ("R", "r"),
   ("S", "s"), ("T", "t"), ("U", "u"), ("V", "v"), ("W", "w"), ("X", "x"),
   ("Y", "y"), ("Z", "z"),
   ("!", "1"), ("@", "2"), ("#", "3"), ("$", "4"), ("%", "5"),
   ("^", "6"), ("&", "7"), ("*", "8"), ("(", "9"), (")", "0"),
   ("_", "-"), ("+", "="),
   (String.mk [Char.ofNat 0x7B], "["), (String.mk [Char.ofNat 0x7D], "]"),
   ("|", String.mk [Char.ofNat 0x5C]),
   (":", ";"), (String.mk [Char.ofNat 0x22], String.mk [Char.ofNat 0x27]),
   ("~", String.mk [Char.ofNat 0x60]),
   ("<", ","), (">", "."), ("?", "/")]

/-- Python `str.lower()` restricted to ASCII, which is all the tables use:
code points A-Z map to a-z, everything else is unchanged. -/
def asciiLower (c : Char) : Char :=
  if 0x41 ≤ c.toNat ∧ c.toNat ≤ 0x5A then Char.ofNat (c.toNat + 0x20) else c

/-- `char.lower()` on the symbol string. -/
def strLower (s : String) : String := String.mk (s.toList.map asciiLower)

/-- The symbol-to-(modifier, keycode) resolution of `send_key`
(lines 530-546): named keys are matched case-insensitively first; then the
shifted-character table (base key plus Left-Shift modifier 0x02); then the
plain character table (modifier 0).  `none` is the unknown-character case.
The inner `none` of the shift branch cannot occur (every `SHIFT_CHARS`
value is a `CHAR_TO_KEYCODE` key); in Python it would be a `KeyError`. -/
def encode_key (char : String) : Option (Nat × Nat) :=
  match lookupStr SPECIAL_KEYS (strLower char) with
  | some mk => some mk
  | none =>
    match lookupStr SHIFT_CHARS char with
    | some base =>
      match lookupStr CHAR_TO_KEYCODE base with
      | some p => some (0x02, p.2)
      | none => none
    | none =>
      match lookupStr CHAR_TO_KEYCODE char with
      | some p => some (0, p.2)
      | none => none

/-- The two report characteristics the scheduler writes to. -/
inductive Target where
  | kb : Target
  | mouse : Target
deriving DecidableEq

/-- One scheduled `send_report`: relative fire time in milliseconds, target
report characteristic, and the report payload bytes. -/
structure Emission where
  time : Nat
  target : Target
  payload : List Nat
deriving DecidableEq

/-- `send_key` (lines 530-550): on a known symbol, the active 8-byte report
`[modifier, 0x00, keycode, 0, 0, 0, 0, 0]` immediately and the zero report
80 ms later; on an unknown symbol, no emission at all. -/
def send_key_sched (char : String) : List Emission :=
  match encode_key char with
  | some (m, k) =>
      [⟨0, Target.kb, [m, 0x00, k, 0, 0, 0, 0, 0]⟩,
       ⟨80, Target.kb, [0, 0, 0, 0, 0, 0, 0, 0]⟩]
  | none => []

/-- `send_hid` (lines 553-556): raw modifier/keycode report plus release. -/
def send_hid_sched (modifier keycode : Int) : List Emission :=
  [⟨0, Target.kb, [byteOf modifier, 0x00, byteOf keycode, 0, 0, 0, 0, 0]⟩,
   ⟨80, Target.kb, [0, 0, 0, 0, 0, 0, 0, 0]⟩]

/-- The contribution of the character at index `i` of a typed string:
`send_key` fired at `i * 200` ms (line 561), its own emissions shifted by
that base time. -/
def char_emissions (i : Nat) (c : Char) : List Emission :=
  (send_key_sched (String.mk [c])).map
    (fun e => ⟨i * 200 + e.time, e.target, e.payload⟩)

/-- The loop of `send_string` (lines 559-562) from character index `i` on. -/
def send_string_from (i : Nat) : List Char → List Emission
  | [] => []
  | c :: rest => char_emissions i c ++ send_string_from (i + 1) rest

/-- `send_string` (lines 559-562): every character's `send_key` is enqueued
up front at successive multiples of the 200 ms inter-character interval. -/
def send_string_sched (text : List Char) : List Emission :=
  send_string_from 0 text

/-- `steps = max(abs(dx), abs(dy), 1) // STEP or 1` with `STEP = 50`
(lines 568-570). -/
def moveSteps (dx dy : Int) : Nat :=
  let s := (max (max dx.natAbs dy.natAbs) 1) / 50
  if s = 0 then 1 else s

/-- The per-report x delta of `move_mouse`: `round(dx / steps)` then clamped
to `[-127, 127]` (lines 571-576).  It is the same for every sub-step; the
float division `dx / steps` is modelled as the exact rational. -/
def moveStepDx (dx dy : Int) : Int :=
  clamp127 (pyDivRound dx (moveSteps dx dy))

/-- The per-report y delta of `move_mouse` (lines 572-577). -/
def moveStepDy (dx dy : Int) : Int :=
  clamp127 (pyDivRound dy (moveSteps dx dy))

/-- `move_mouse` (lines 565-583): `steps` equal sub-step reports at 8 ms
intervals, each `[0x00, sdx & 0xFF, sdy & 0xFF, 0x00]`, then the zero
report at `steps * 8` ms. -/
def move_mouse (dx dy : Int) : List Emission :=
  let steps := moveSteps dx dy
  (List.range steps).map (fun i =>
    ⟨i * 8, Target.mouse,
     [0x00, byteOf (moveStepDx dx dy), byteOf (moveStepDy dx dy), 0x00]⟩) ++
  [⟨steps * 8, Target.mouse, [0, 0, 0, 0]⟩]

/-- `click` (lines 586-588): button-down report (bit 0 set) immediately,
button-up zero report 80 ms later. -/
def click_sched : List Emission :=
  [⟨0, Target.mouse, [0x01, 0x00, 0x00, 0x00]⟩,
   ⟨80, Target.mouse, [0, 0, 0, 0]⟩]

/-- `direction = 1 if amount > 0 else -1` (line 596). -/
def scrollDir (amount : Int) : Int := if 0 < amount then 1 else -1

/-- `scroll` (lines 591-603): `abs(amount)` wheel reports, one unit per
step (`STEP = 1`), at 50 ms intervals, then the zero report. -/
def scroll_sched (amount : Int) : List Emission :=
  let steps := amount.natAbs
  (List.range steps).map (fun i =>
    ⟨i * 50, Target.mouse, [0x00, 0x00, 0x00, byteOf (scrollDir amount * 1)]⟩) ++
  [⟨steps * 50, Target.mouse, [0, 0, 0, 0]⟩]

/-- Accumulate a decimal digit string into a number; any non-digit
character fails the parse. -/
def natOfDigits (cs : List Char) : Option Nat :=
  cs.foldl (fun acc c =>
    match acc with
    | some a =>
        if 0x30 ≤ c.toNat ∧ c.toNat ≤ 0x39 then some (a * 10 + (c.toNat - 0x30))
        else none
    | none => none) (some 0)

/-- Python `int(s)` / `int(s, 0)` as used by `handle_command` (lines
743-747), modelled for plain optionally-signed decimal strings (the only
forms the claims exercise; Python additionally strips whitespace and, for
base 0, accepts radix prefixes); a failed parse is the `ValueError` case. -/
def pyInt (s : String) : Option Int :=
  match s.toList with
  | [] => none
  | c :: rest =>
    if c = Char.ofNat 0x2D then
      match rest with
      | [] => none
      | _ => (natOfDigits rest).map (fun n => -(n : Int))
    else if c = Char.ofNat 0x2B then
      match rest with
      | [] => none
      | _ => (natOfDigits rest).map (fun n => (n : Int))
    else
      (natOfDigits (c :: rest)).map (fun n => (n : Int))

/-- The outcome of dispatching one command line. -/
inductive Dispatch where
  | noInput : Dispatch
  | act (es : List Emission) : Dispatch
  | quit : Dispatch
  | help : Dispatch
  | unknown (cmd : String) : Dispatch
  | valueError : Dispatch
deriving DecidableEq

/-- `handle_command` (lines 731-755) after `line.strip().split()`: the
`if`/`elif` chain in source order.  A recognized command word with too few
arguments falls through to the final `else`, which prints the
`Unknown: <cmd>` usage diagnostic. `valueError` is Python's uncaught
`int()` exception on a malformed numeric argument. -/
def handle_command (parts : List String) : Dispatch :=
  match parts with
  | [] => Dispatch.noInput
  | cmd :: rest =>
    if cmd = "send_key" ∧ 1 ≤ rest.length then
      Dispatch.act (send_key_sched (rest.getD 0 ""))
    else if cmd = "send_string" ∧ 1 ≤ rest.length then
      Dispatch.act (send_string_sched (String.intercalate " " rest).toList)
    else if cmd = "click" then
      Dispatch.act click_sched
    else if cmd = "send_hid" ∧ 2 ≤ rest.length then
      match pyInt (rest.getD 0 ""), pyInt (rest.getD 1 "") with
      | some m, some k => Dispatch.act (send_hid_sched m k)
      | _, _ => Dispatch.valueError
    else if cmd = "move" ∧ 2 ≤ rest.length then
      match pyInt (rest.getD 0 ""), pyInt (rest.getD 1 "") with
      | some dx, some dy => Dispatch.act (move_mouse dx dy)
      | _, _ => Dispatch.valueError
    else if cmd = "scroll" ∧ 1 ≤ rest.length then
      match pyInt (rest.getD 0 "") with
      | some a => Dispatch.act (scroll_sched a)
      | none => Dispatch.valueError
    else if cmd = "quit" ∨ cmd = "exit" ∨ cmd = "q" then
      Dispatch.quit
    else if cmd = "help" then
      Dispatch.help
    else
      Dispatch.unknown cmd

/-- The mutable value buffers of the three report characteristics — the only
state a scheduled emission can change (`send_report` / `WriteValue`). -/
structure AppState where
  kbValue : List Nat
  mouseValue : List Nat
  ledValue : List Nat
deriving DecidableEq

/-- `send_report` (lines 433-436): replace the target characteristic's value
buffer with the payload (and signal `PropertiesChanged`). -/
def applyEmission (st : AppState) (e : Emission) : AppState :=
  match e.target with
  | Target.kb => { st with kbValue := e.payload }
  | Target.mouse => { st with mouseValue := e.payload }

/-- Run one dispatched command against the report buffers; the `Bool` is
whether the main loop quits. -/
def runDispatch (st : AppState) (d : Dispatch) : AppState × Bool :=
  match d with
  | Dispatch.act es => (es.foldl applyEmission st, false)
  | Dispatch.quit => (st, true)
  | _ => (st, false)

/-- What `main` (lines 662-775) runs.  `oneShot` is the mode the spec
describes (perform a single command-line action, then exit); it is listed so
theorems can state whether it is ever selected. -/
inductive RunMode where
  | interactive : RunMode
  | oneShot : RunMode
deriving DecidableEq

/-- `main` never inspects `sys.argv`: every invocation registers the agent,
application and advertisement and enters the interactive prompt loop
(lines 662-775 contain no argument parsing). -/
def mainRunMode (_argv : List String) : RunMode := RunMode.interactive

/-- A payload that is all zero bytes (a release / neutral report). -/
def zeroPayload (e : Emission) : Bool := e.payload.all (fun b => b == 0)

/-- The ordering discipline of one user action's schedule: emission times are
strictly increasing, and if any emission is active (nonzero payload) then the
schedule ends with a release (all-zero) emission — which, by the strict
ordering, fires after every active one. -/
def actionOrdered (es : List Emission) : Prop :=
  (es.map Emission.time).Pairwise (fun a b => a < b) ∧
  ((∃ e ∈ es, zeroPayload e = false) →
    ∃ z, es.getLast? = some z ∧ zeroPayload z = true)

/-! ## GATT attribute tree

The D-Bus object hierarchy of `Application` / `Service` / `Characteristic` /
`Descriptor` (lines 171-344) and the concrete tree `main` builds
(lines 691-695).  Property values are modelled by `PropValue`; note that
`Characteristic.get_properties` (lines 251-260) and
`Descriptor.get_properties` (lines 316-323) do not include the value
buffer among the reported properties. -/

/-- A D-Bus property value as produced by the `get_properties` methods. -/
inductive PropValue where
  | str (v : String) : PropValue
  | boolean (v : Bool) : PropValue
  | strs (v : List String) : PropValue
deriving DecidableEq

/-- GATT descriptor (class `Descriptor`, lines 305-344): path derived from
the owning characteristic's path and the construction index. -/
structure GattDescriptor where
  path : String
  uuid : String
  flags : List String
  chrcPath : String
  value : List Nat
deriving DecidableEq

/-- GATT characteristic (class `Characteristic`, lines 239-302). -/
structure GattCharacteristic where
  path : String
  uuid : String
  flags : List String
  servicePath : String
  descriptors : List GattDescriptor
  value : List Nat
deriving DecidableEq

/-- GATT service (class `Service`, lines 197-236). -/
structure GattService where
  path : String
  uuid : String
  primary : Bool
  characteristics : List GattCharacteristic
deriving DecidableEq

/-- The GATT application (class `Application`, lines 171-194). -/
structure GattApplication where
  services : List GattService
deriving DecidableEq

def GATT_SERVICE_IFACE : String := "org.bluez.GattService1"
def GATT_CHRC_IFACE : String := "org.bluez.GattCharacteristic1"
def GATT_DESC_IFACE : String := "org.bluez.GattDescriptor1"

/-- `Service.PATH_BASE + str(index)` (lines 198-201). -/
def servicePathOf (index : Nat) : String :=
  "/org/bluez/baremobile/service" ++ toString index

/-- `service.path + '/char' + str(index)` (line 242). -/
def chrcPathOf (svcPath : String) (index : Nat) : String :=
  svcPath ++ "/char" ++ toString index

/-- `chrc.path + '/desc' + str(index)` (line 308). -/
def descPathOf (chrcPath : String) (index : Nat) : String :=
  chrcPath ++ "/desc" ++ toString index

/-- `Service.get_properties` (lines 208-216): UUID, Primary and the live
list of characteristic paths. -/
def GattService.get_properties (s : GattService) :
    List (String × List (String × PropValue)) :=
  [(GATT_SERVICE_IFACE,
    [("UUID", PropValue.str s.uuid),
     ("Primary", PropValue.boolean s.primary),
     ("Characteristics", PropValue.strs (s.characteristics.map (fun c => c.path)))])]

/-- `Characteristic.get_properties` (lines 251-260): Service back-reference,
UUID, Flags and the live list of descriptor paths — the value buffer is not
among the reported properties. -/
def GattCharacteristic.get_properties (c : GattCharacteristic) :
    List (String × List (String × PropValue)) :=
  [(GATT_CHRC_IFACE,
    [("Service", PropValue.str c.servicePath),
     ("UUID", PropValue.str c.uuid),
     ("Flags", PropValue.strs c.flags),
     ("Descriptors", PropValue.strs (c.descriptors.map (fun d => d.path)))])]

/-- `Descriptor.get_properties` (lines 316-323). -/
def GattDescriptor.get_properties (d : GattDescriptor) :
    List (String × List (String × PropValue)) :=
  [(GATT_DESC_IFACE,
    [("Characteristic", PropValue.str d.chrcPath),
     ("UUID", PropValue.str d.uuid),
     ("Flags", PropValue.strs d.flags)])]

/-- The entry a characteristic contributes to `GetManagedObjects`: its own
properties followed by one entry per attached descriptor (lines 191-193). -/
def chrcEntries (c : GattCharacteristic) :
    List (String × List (String × List (String × PropValue))) :=
  (c.path, c.get_properties) :: c.descriptors.map (fun d => (d.path, d.get_properties))

/-- The entries a service contributes to `GetManagedObjects` (lines 188-193). -/
def svcEntries (s : GattService) :
    List (String × List (String × List (String × PropValue))) :=
  (s.path, s.get_properties) :: s.characteristics.flatMap chrcEntries

/-- `Application.GetManagedObjects` (lines 185-194): one entry per attached
service, characteristic and descriptor, with properties computed at call
time by the `get_properties` methods. -/
def GetManagedObjects (app : GattApplication) :
    List (String × List (String × List (String × PropValue))) :=
  app.services.flatMap svcEntries

/-- The paths of every attribute currently attached to the application, in
tree order. -/
def attachedPaths (app : GattApplication) : List String :=
  app.services.flatMap (fun s =>
    s.path :: s.characteristics.flatMap (fun c =>
      c.path :: c.descriptors.map (fun d => d.path)))

/-- Value replacement on one characteristic (the body of `WriteValue` /
`send_report`): if this is the addressed characteristic, swap its buffer. -/
def updChar (cpath : String) (v : List Nat) (c : GattCharacteristic) :
    GattCharacteristic :=
  if c.path = cpath then { c with value := v } else c

/-- Value replacement lifted to a service. -/
def updSvc (cpath : String) (v : List Nat) (s : GattService) : GattService :=
  { s with characteristics := s.characteristics.map (updChar cpath v) }

/-- `WriteValue` / `send_report` on the characteristic with the given path:
replace its value buffer, leaving the rest of the tree untouched. -/
def setCharValue (app : GattApplication) (cpath : String) (v : List Nat) :
    GattApplication :=
  { services := app.services.map (updSvc cpath v) }

/-- `ReadValue` (lines 282-285): the current value buffer of the
characteristic at the given path. -/
def readCharValue (app : GattApplication) (cpath : String) : Option (List Nat) :=
  ((app.services.flatMap (fun s => s.characteristics)).find?
    (fun c => c.path == cpath)).map (fun c => c.value)

/-- The HID Report Map blob (lines 43-109): keyboard collection (Report ID
1) then mouse collection (Report ID 2). -/
def REPORT_MAP : List Nat :=
  [0x05, 0x01, 0x09, 0x06, 0xA1, 0x01, 0x85, 0x01, 0x05, 0x07,
   0x19, 0xE0, 0x29, 0xE7, 0x15, 0x00, 0x25, 0x01, 0x75, 0x01,
   0x95, 0x08, 0x81, 0x02, 0x95, 0x01, 0x75, 0x08, 0x81, 0x01,
   0x95, 0x06, 0x75, 0x08, 0x15, 0x00, 0x25, 0x65, 0x05, 0x07,
   0x19, 0x00, 0x29, 0x65, 0x81, 0x00, 0x05, 0x08, 0x19, 0x01,
   0x29, 0x05, 0x95, 0x05, 0x75, 0x01, 0x91, 0x02, 0x95, 0x01,
   0x75, 0x03, 0x91, 0x01, 0xC0,
   0x05, 0x01, 0x09, 0x02, 0xA1, 0x01, 0x85, 0x02, 0x09, 0x01,
   0xA1, 0x00, 0x05, 0x09, 0x19, 0x01, 0x29, 0x03, 0x15, 0x00,
   0x25, 0x01, 0x95, 0x03, 0x75, 0x01, 0x81, 0x02, 0x95, 0x01,
   0x75, 0x05, 0x81, 0x01, 0x05, 0x01, 0x09, 0x30, 0x09, 0x31,
   0x09, 0x38, 0x15, 0x81, 0x25, 0x7F, 0x75, 0x08, 0x95, 0x03,
   0x81, 0x06, 0xC0, 0xC0]

def PROTOCOL_MODE_UUID : String := "00002a4e-0000-1000-8000-00805f9b34fb"
def HID_INFO_UUID : String := "00002a4a-0000-1000-8000-00805f9b34fb"
def CONTROL_POINT_UUID : String := "00002a4c-0000-1000-8000-00805f9b34fb"
def REPORT_MAP_UUID : String := "00002a4b-0000-1000-8000-00805f9b34fb"
def REPORT_UUID : String := "00002a4d-0000-1000-8000-00805f9b34fb"
def REPORT_REFERENCE_UUID : String := "00002908-0000-1000-8000-00805f9b34fb"

/-- `ProtocolModeChrc` (lines 369-375). -/
def mkProtocolModeChrc (index : Nat) (svcPath : String) : GattCharacteristic :=
  { path := chrcPathOf svcPath index, uuid := PROTOCOL_MODE_UUID,
    flags := ["read", "write-without-response"], servicePath := svcPath,
    descriptors := [], value := [0x01] }

/-- `HIDInfoChrc` (lines 378-385): bcdHID 1.11, country 0, flags 0x02. -/
def mkHIDInfoChrc (index : Nat) (svcPath : String) : GattCharacteristic :=
  { path := chrcPathOf svcPath index, uuid := HID_INFO_UUID,
    flags := ["read"], servicePath := svcPath,
    descriptors := [], value := [0x11, 0x01, 0x00, 0x02] }

/-- `ControlPointChrc` (lines 388-393): write-only, no initial value. -/
def mkControlPointChrc (index : Nat) (svcPath : String) : GattCharacteristic :=
  { path := chrcPathOf svcPath index, uuid := CONTROL_POINT_UUID,
    flags := ["write-without-response"], servicePath := svcPath,
    descriptors := [], value := [] }

/-- `ReportMapChrc` (lines 396-401). -/
def mkReportMapChrc (index : Nat) (svcPath : String) : GattCharacteristic :=
  { path := chrcPathOf svcPath index, uuid := REPORT_MAP_UUID,
    flags := ["secure-read"], servicePath := svcPath,
    descriptors := [], value := REPORT_MAP }

/-- `ReportReferenceDesc` (lines 404-410): value `[report_id, report_type]`. -/
def mkReportReferenceDesc (index : Nat) (chrcPath : String)
    (reportId reportType : Nat) : GattDescriptor :=
  { path := descPathOf chrcPath index, uuid := REPORT_REFERENCE_UUID,
    flags := ["secure-read"], chrcPath := chrcPath,
    value := [reportId, reportType] }

/-- `ReportChrc` (lines 413-436): input report of `size` zero bytes with a
Report Reference descriptor `(report_id, type=1)`. -/
def mkReportChrc (index : Nat) (svcPath : String) (reportId size : Nat) :
    GattCharacteristic :=
  { path := chrcPathOf svcPath index, uuid := REPORT_UUID,
    flags := ["secure-read", "notify"], servicePath := svcPath,
    descriptors := [mkReportReferenceDesc 0 (chrcPathOf svcPath index) reportId 1],
    value := List.replicate size 0 }

/-- `OutputReportChrc` (lines 439-451): LED output report, Report Reference
`(1, type=2)`, one zero byte. -/
def mkOutputReportChrc (index : Nat) (svcPath : String) : GattCharacteristic :=
  { path := chrcPathOf svcPath index, uuid := REPORT_UUID,
    flags := ["secure-read", "write", "write-without-response"],
    servicePath := svcPath,
    descriptors := [mkReportReferenceDesc 0 (chrcPathOf svcPath index) 1 2],
    value := [0] }

def HID_SERVICE_UUID : String := "00001812-0000-1000-8000-00805f9b34fb"

/-- `HIDService.__init__` (lines 349-366): the characteristics in
construction order, each receiving its construction-time index. -/
def mkHIDService (index : Nat) : GattService :=
  let p := servicePathOf index
  { path := p, uuid := HID_SERVICE_UUID, primary := true,
    characteristics :=
      [mkProtocolModeChrc 0 p,
       mkHIDInfoChrc 1 p,
       mkControlPointChrc 2 p,
       mkReportMapChrc 3 p,
       mkReportChrc 4 p 1 8,
       mkReportChrc 5 p 2 4,
       mkOutputReportChrc 6 p] }

def DEVICE_INFO_UUID : String := "0000180a-0000-1000-8000-00805f9b34fb"
def MANUFACTURER_UUID : String := "00002a29-0000-1000-8000-00805f9b34fb"
def PNP_ID_UUID : String := "00002a50-0000-1000-8000-00805f9b34fb"

/-- `ManufacturerChrc` (lines 465-470): the bytes of `b'baremobile'`. -/
def mkManufacturerChrc (index : Nat) (svcPath : String) : GattCharacteristic :=
  { path := chrcPathOf svcPath index, uuid := MANUFACTURER_UUID,
    flags := ["read"], servicePath := svcPath, descriptors := [],
    value := [0x62, 0x61, 0x72, 0x65, 0x6D, 0x6F, 0x62, 0x69, 0x6C, 0x65] }

/-- `PnPIDChrc` (lines 473-480). -/
def mkPnPIDChrc (index : Nat) (svcPath : String) : GattCharacteristic :=
  { path := chrcPathOf svcPath index, uuid := PNP_ID_UUID,
    flags := ["read"], servicePath := svcPath, descriptors := [],
    value := [0x02, 0xAC, 0x05, 0x01, 0x00, 0x01, 0x00] }

/-- `DeviceInfoService` (lines 456-462). -/
def mkDeviceInfoService (index : Nat) : GattService :=
  let p := servicePathOf index
  { path := p, uuid := DEVICE_INFO_UUID, primary := true,
    characteristics := [mkManufacturerChrc 0 p, mkPnPIDChrc 1 p] }

def BATTERY_UUID : String := "0000180f-0000-1000-8000-00805f9b34fb"
def BATTERY_LEVEL_UUID : String := "00002a19-0000-1000-8000-00805f9b34fb"

/-- `BatteryLevelChrc` (lines 493-498). -/
def mkBatteryLevelChrc (index : Nat) (svcPath : String) : GattCharacteristic :=
  { path := chrcPathOf svcPath index, uuid := BATTERY_LEVEL_UUID,
    flags := ["read", "notify"], servicePath := svcPath, descriptors := [],
    value := [100] }

/-- `BatteryService` (lines 485-490). -/
def mkBatteryService (index : Nat) : GattService :=
  let p := servicePathOf index
  { path := p, uuid := BATTERY_UUID, primary := true,
    characteristics := [mkBatteryLevelChrc 0 p] }

/-- The application `main` builds (lines 691-695): HID service at index 0,
Device Information at 1, Battery at 2. -/
def buildApp : GattApplication :=
  { services := [mkHIDService 0, mkDeviceInfoService 1, mkBatteryService 2] }

/-- The path of the keyboard report characteristic in the built tree. -/
def kbReportPath : String := chrcPathOf (servicePathOf 0) 4

/-! ## Helper lemmas -/

theorem clamp127_lb (v : Int) : -127 ≤ clamp127 v := le_max_left _ _

theorem clamp127_ub (v : Int) : clamp127 v ≤ 127 :=
  max_le (by norm_num) (min_le_left _ _)

theorem clamp127_of_mem (v : Int) (h1 : -127 ≤ v) (h2 : v ≤ 127) :
    clamp127 v = v := by
  unfold clamp127
  rw [min_eq_right h2, max_eq_right h1]

/-- Byte encode then sign-decode is the identity on the signed byte range. -/
theorem sbyte_byteOf (v : Int) (h1 : -128 ≤ v) (h2 : v < 128) :
    sbyte (byteOf v) = v := by
  unfold byteOf sbyte
  split <;> omega

theorem moveSteps_pos (dx dy : Int) : 1 ≤ moveSteps dx dy := by
  unfold moveSteps
  dsimp only
  split <;> omega

/-- The times of a stepped schedule (`i * I` for `i < n`, then `n * I`) are
strictly increasing when the interval is positive. -/
theorem pairwise_step_times (n I : Nat) (hI : 0 < I) :
    (((List.range n).map (fun i => i * I)) ++ [n * I]).Pairwise
      (fun a b => a < b) := by
  rw [List.pairwise_append]
  refine ⟨?_, List.pairwise_singleton _ _, ?_⟩
  · exact (List.pairwise_lt_range n).map _
      (fun a b h => Nat.mul_lt_mul_of_lt_of_le h (le_refl I) hI)
  · intro a ha b hb
    rw [List.mem_singleton] at hb
    obtain ⟨i, hi, rfl⟩ := List.mem_map.mp ha
    rw [List.mem_range] at hi
    subst hb
    exact Nat.mul_lt_mul_of_lt_of_le hi (le_refl I) hI

/-- Updating a characteristic's value buffer changes none of the properties
`GetManagedObjects` reports for it (the value is not among them). -/
theorem chrcEntries_updChar (cpath : String) (v : List Nat)
    (c : GattCharacteristic) :
    chrcEntries (updChar cpath v c) = chrcEntries c := by
  unfold updChar
  split <;> rfl

theorem path_updChar (cpath : String) (v : List Nat)
    (c : GattCharacteristic) :
    (updChar cpath v c).path = c.path := by
  unfold updChar
  split <;> rfl

theorem flatMap_chrcEntries_updChar (cpath : String) (v : List Nat) :
    ∀ l : List GattCharacteristic,
      (l.map (updChar cpath v)).flatMap chrcEntries = l.flatMap chrcEntries
  | [] => rfl
  | c :: rest => by
      simp only [List.map_cons, List.flatMap_cons,
        flatMap_chrcEntries_updChar cpath v rest,
        chrcEntries_updChar cpath v c]

theorem mapPath_updChar (cpath : String) (v : List Nat) :
    ∀ l : List GattCharacteristic,
      (l.map (updChar cpath v)).map (fun c => c.path) = l.map (fun c => c.path)
  | [] => rfl
  | c :: rest => by
      simp only [List.map_cons, mapPath_updChar cpath v rest,
        path_updChar cpath v c]

theorem svcEntries_updSvc (cpath : String) (v : List Nat) (s : GattService) :
    svcEntries (updSvc cpath v s) = svcEntries s := by
  unfold updSvc svcEntries GattService.get_properties
  rw [mapPath_updChar, flatMap_chrcEntries_updChar]

theorem flatMap_svcEntries_updSvc (cpath : String) (v : List Nat) :
    ∀ l : List GattService,
      (l.map (updSvc cpath v)).flatMap svcEntries = l.flatMap svcEntries
  | [] => rfl
  | s :: rest => by
      simp only [List.map_cons, List.flatMap_cons,
        flatMap_svcEntries_updSvc cpath v rest,
        svcEntries_updSvc cpath v s]

/-- `GetManagedObjects` is insensitive to characteristic value buffers:
its output never contains them. -/
theorem gmo_setCharValue (app : GattApplication) (cpath : String)
    (v : List Nat) :
    GetManagedObjects (setCharValue app cpath v) = GetManagedObjects app := by
  unfold GetManagedObjects setCharValue
  exact flatMap_svcEntries_updSvc cpath v app.services

end BareMobile

namespace BareMobile

/-! ## Claim theorems -/

/-- C1 (counterexample): in `HIDService.__init__` the characteristic built
with index 2 is the HID Control Point and the one with index 3 is the Report
Map — not, as claimed, Report Map at index 2 and Control Point at index 3. -/
theorem hid_order_counterexample :
    ((mkHIDService 0).characteristics.map (fun c => c.uuid)).get? 2 =
      some CONTROL_POINT_UUID ∧
    ((mkHIDService 0).characteristics.map (fun c => c.uuid)).get? 3 =
      some REPORT_MAP_UUID ∧
    CONTROL_POINT_UUID ≠ REPORT_MAP_UUID := by
  refine ⟨rfl, rfl, ?_⟩
  decide

/-- C1 (amended): the HID service constructs its characteristics in the
fixed order Protocol Mode (index 0), HID Information (1), HID Control Point
(2), Report Map (3), then Keyboard Report (ID 1, index 4), Mouse Report
(ID 2, index 5) and LED Output Report (index 6); each characteristic's path
is derived from its construction-time index, and the report characteristics
carry Report Reference descriptor values `[id, type]` of `[1,1]`, `[2,1]`
and `[1,2]` respectively. -/
theorem hid_order :
    (mkHIDService 0).characteristics.map (fun c => (c.uuid, c.path)) =
      [(PROTOCOL_MODE_UUID, chrcPathOf (servicePathOf 0) 0),
       (HID_INFO_UUID, chrcPathOf (servicePathOf 0) 1),
       (CONTROL_POINT_UUID, chrcPathOf (servicePathOf 0) 2),
       (REPORT_MAP_UUID, chrcPathOf (servicePathOf 0) 3),
       (REPORT_UUID, chrcPathOf (servicePathOf 0) 4),
       (REPORT_UUID, chrcPathOf (servicePathOf 0) 5),
       (REPORT_UUID, chrcPathOf (servicePathOf 0) 6)] ∧
    (mkHIDService 0).characteristics.map
        (fun c => c.descriptors.map (fun d => d.value)) =
      [[], [], [], [], [[1, 1]], [[2, 1]], [[1, 2]]] := by
  exact ⟨rfl, rfl⟩

/-- C2 (counterexample): a value mutation performed after tree construction
is NOT visible in the introspection result — writing a new keyboard report
buffer changes what `ReadValue` returns, yet `GetManagedObjects` returns
exactly the same map as before the mutation, because characteristic
properties do not include the value buffer. -/
theorem gmo_mutation_invisible :
    readCharValue buildApp kbReportPath =
      some [0, 0, 0, 0, 0, 0, 0, 0] ∧
    readCharValue (setCharValue buildApp kbReportPath [0, 0, 4, 0, 0, 0, 0, 0])
        kbReportPath = some [0, 0, 4, 0, 0, 0, 0, 0] ∧
    GetManagedObjects (setCharValue buildApp kbReportPath [0, 0, 4, 0, 0, 0, 0, 0]) =
      GetManagedObjects buildApp :=
  ⟨rfl, rfl, gmo_setCharValue buildApp kbReportPath _⟩

/-- C2 (amended): `GetManagedObjects` returns exactly one entry per
currently attached service, characteristic and descriptor (the entry paths
are precisely the attached paths, with no duplicates); every
characteristic's `Service` property names its unique parent service and
every descriptor's `Characteristic` property names its unique parent
characteristic; the map is computed on demand from the live tree — but the
reported characteristic properties do not include the value buffer, so a
value mutation performed after construction is invisible in the
introspection result (it is visible only through `ReadValue`). -/
theorem gmo_live_tree :
    (GetManagedObjects buildApp).map (fun e => e.1) = attachedPaths buildApp ∧
    ((GetManagedObjects buildApp).map (fun e => e.1)).Nodup ∧
    (buildApp.services.all (fun s => s.characteristics.all (fun c =>
        c.servicePath == s.path &&
        (buildApp.services.countP (fun s2 => s2.path == c.servicePath) == 1)))) =
      true ∧
    ((buildApp.services.flatMap (fun s => s.characteristics)).all (fun c =>
        c.descriptors.all (fun d =>
          d.chrcPath == c.path &&
          ((buildApp.services.flatMap (fun s2 => s2.characteristics)).countP
              (fun c2 => c2.path == d.chrcPath) == 1)))) = true ∧
    (∀ v : List Nat,
      GetManagedObjects (setCharValue buildApp kbReportPath v) =
        GetManagedObjects buildApp) ∧
    (∀ v : List Nat,
      readCharValue (setCharValue buildApp kbReportPath v) kbReportPath =
        some v) := by
  refine ⟨by decide, by decide, by decide, by decide,
    fun v => gmo_setCharValue buildApp kbReportPath v, fun v => rfl⟩

/-- C2 witness: the universally quantified clauses at a concrete buffer. -/
theorem gmo_live_tree_witness :
    readCharValue (setCharValue buildApp kbReportPath [1, 2, 3]) kbReportPath =
      some [1, 2, 3] :=
  gmo_live_tree.2.2.2.2.2 [1, 2, 3]

/-- C3: `move_mouse 300 0` schedules exactly 6 stepped reports of dx = 50 at
8 ms intervals plus one trailing zero report strictly after the last step;
the stepped dx values sum to 300 exactly; and in general each per-report
delta is clamped into `[-127, 127]`, there is at least one step, and the
zero report's time strictly exceeds the last step's time. -/
theorem move_split_and_release :
    move_mouse 300 0 =
      [⟨0, Target.mouse, [0, 50, 0, 0]⟩,
       ⟨8, Target.mouse, [0, 50, 0, 0]⟩,
       ⟨16, Target.mouse, [0, 50, 0, 0]⟩,
       ⟨24, Target.mouse, [0, 50, 0, 0]⟩,
       ⟨32, Target.mouse, [0, 50, 0, 0]⟩,
       ⟨40, Target.mouse, [0, 50, 0, 0]⟩,
       ⟨48, Target.mouse, [0, 0, 0, 0]⟩] ∧
    ((move_mouse 300 0).dropLast.map
        (fun e => sbyte (e.payload.getD 1 0))).sum = 300 ∧
    (∀ dx dy : Int,
      -127 ≤ moveStepDx dx dy ∧ moveStepDx dx dy ≤ 127 ∧
      -127 ≤ moveStepDy dx dy ∧ moveStepDy dx dy ≤ 127 ∧
      1 ≤ moveSteps dx dy ∧
      (moveSteps dx dy - 1) * 8 < moveSteps dx dy * 8) := by
  refine ⟨by decide, by decide, fun dx dy => ?_⟩
  refine ⟨clamp127_lb _, clamp127_ub _, clamp127_lb _, clamp127_ub _,
    moveSteps_pos dx dy, ?_⟩
  have h := moveSteps_pos dx dy
  omega

/-- C3 witness: the general clauses at a concrete input. -/
theorem move_split_and_release_witness :
    -127 ≤ moveStepDx 300 0 ∧ 1 ≤ moveSteps 300 0 :=
  ⟨(move_split_and_release.2.2 300 0).1,
   (move_split_and_release.2.2 300 0).2.2.2.2.1⟩

/-- C7: the mouse-report encoding clamps the x and y deltas independently to
`[-127, 127]` (each per-report delta of `move_mouse` lies in that range and
round-trips through its byte encoding), clamping is the identity on in-range
inputs and idempotent; every wheel value `scroll` encodes is `±1`, in range
and unchanged by its byte encoding; and the click report sets buttons bit 0
(the primary button). -/
theorem mouse_encoding_clamped :
    (∀ v : Int, -127 ≤ clamp127 v ∧ clamp127 v ≤ 127 ∧
      clamp127 (clamp127 v) = clamp127 v) ∧
    (∀ v : Int, -127 ≤ v → v ≤ 127 → clamp127 v = v) ∧
    (∀ dx dy : Int,
      sbyte (byteOf (moveStepDx dx dy)) = moveStepDx dx dy ∧
      sbyte (byteOf (moveStepDy dx dy)) = moveStepDy dx dy) ∧
    (∀ amount : Int,
      -127 ≤ scrollDir amount * 1 ∧ scrollDir amount * 1 ≤ 127 ∧
      sbyte (byteOf (scrollDir amount * 1)) = scrollDir amount * 1) ∧
    ((click_sched.map (fun e => e.payload)).get? 0 = some [0x01, 0, 0, 0] ∧
      Nat.testBit 0x01 0 = true) := by
  refine ⟨fun v => ⟨clamp127_lb v, clamp127_ub v, ?_⟩,
          fun v h1 h2 => clamp127_of_mem v h1 h2,
          fun dx dy => ⟨?_, ?_⟩, fun amount => ?_, by decide⟩
  · exact clamp127_of_mem _ (clamp127_lb v) (clamp127_ub v)
  · exact sbyte_byteOf _
      (by have := clamp127_lb (pyDivRound dx (moveSteps dx dy)); unfold moveStepDx; omega)
      (by have := clamp127_ub (pyDivRound dx (moveSteps dx dy)); unfold moveStepDx; omega)
  · exact sbyte_byteOf _
      (by have := clamp127_lb (pyDivRound dy (moveSteps dx dy)); unfold moveStepDy; omega)
      (by have := clamp127_ub (pyDivRound dy (moveSteps dx dy)); unfold moveStepDy; omega)
  · have hd : scrollDir amount = 1 ∨ scrollDir amount = -1 := by
      unfold scrollDir; split
      · exact Or.inl rfl
      · exact Or.inr rfl
    rcases hd with h | h <;> rw [h]
    · exact ⟨by norm_num, by norm_num, by decide⟩
    · exact ⟨by norm_num, by norm_num, by decide⟩

/-- C7 witness: clamping is the identity on the in-range input 5. -/
theorem mouse_encoding_clamped_witness :
    clamp127 5 = 5 :=
  mouse_encoding_clamped.2.1 5 (by norm_num) (by norm_num)

/-- A two-emission schedule (active then release) is well ordered. -/
theorem sched_two_ordered (e1 e2 : Emission) (h : e1.time < e2.time)
    (hz : zeroPayload e2 = true) : actionOrdered [e1, e2] := by
  constructor
  · simp [List.pairwise_cons, h]
  · intro _
    exact ⟨e2, rfl, hz⟩

/-- A stepped schedule — `n` equal reports at interval `I` followed by the
zero report at `n * I` — is well ordered when the interval is positive. -/
theorem stepped_actionOrdered (n I : Nat) (hI : 0 < I) (t : Target)
    (pay zp : List Nat) (hzp : zp.all (fun b => b == 0) = true) :
    actionOrdered
      ((List.range n).map (fun i => ⟨i * I, t, pay⟩) ++ [⟨n * I, t, zp⟩]) := by
  constructor
  · have h := pairwise_step_times n I hI
    simpa [List.map_append, List.map_map, Function.comp] using h
  · intro _
    refine ⟨⟨n * I, t, zp⟩, ?_, hzp⟩
    exact List.getLast?_concat _

/-- C4: every user action's schedule fires its sub-reports at strictly
increasing times, and whenever the action emits an active (nonzero) report
its schedule ends with a release/zero report — which therefore fires
strictly after every active report of that action.  This covers `send_key`,
`send_hid`, `click`, `move_mouse` and `scroll` on all inputs. -/
theorem action_release_ordering :
    ∀ (char : String) (m k dx dy amount : Int),
      actionOrdered (send_key_sched char) ∧
      actionOrdered (send_hid_sched m k) ∧
      actionOrdered click_sched ∧
      actionOrdered (move_mouse dx dy) ∧
      actionOrdered (scroll_sched amount) := by
  intro char m k dx dy amount
  refine ⟨?_, ?_, sched_two_ordered _ _ (by norm_num) (by decide), ?_, ?_⟩
  · cases h : encode_key char with
    | none => simp [send_key_sched, h, actionOrdered]
    | some p =>
        simp only [send_key_sched, h]
        exact sched_two_ordered _ _ (by norm_num) (by decide)
  · exact sched_two_ordered _ _ (by norm_num) (by decide)
  · exact stepped_actionOrdered (moveSteps dx dy) 8 (by norm_num)
      Target.mouse _ _ (by decide)
  · exact stepped_actionOrdered amount.natAbs 50 (by norm_num)
      Target.mouse _ _ (by decide)

/-- C4 witness: the ordering discipline at concrete inputs. -/
theorem action_release_ordering_witness :
    actionOrdered (send_key_sched "a") ∧ actionOrdered (move_mouse 300 0) :=
  ⟨(action_release_ordering "a" 0 0 300 0 0).1,
   (action_release_ordering "a" 0 0 300 0 0).2.2.2.1⟩

/-- C5: every supported symbol produces the 8-byte keyboard report
`[modifier, reserved 0, key1, 0, 0, 0, 0, 0]` — only key1 is populated,
key2-key6 stay zero; shifted symbols resolve through `SHIFT_CHARS` to their
unshifted base key's keycode with the Left-Shift modifier 0x02; plain
characters (lowercase letters, digits, punctuation) resolve through
`CHAR_TO_KEYCODE` with modifier 0; named keys resolve through
`SPECIAL_KEYS` to their usage ids. -/
theorem send_key_report_layout :
    (∀ (char : String) (m k : Nat), encode_key char = some (m, k) →
      send_key_sched char =
        [⟨0, Target.kb, [m, 0x00, k, 0, 0, 0, 0, 0]⟩,
         ⟨80, Target.kb, [0, 0, 0, 0, 0, 0, 0, 0]⟩]) ∧
    (SHIFT_CHARS.all (fun p =>
        encode_key p.1 ==
          (lookupStr CHAR_TO_KEYCODE p.2).map (fun q => (0x02, q.2)))) = true ∧
    (CHAR_TO_KEYCODE.all (fun p => encode_key p.1 == some (0, p.2.2))) = true ∧
    (SPECIAL_KEYS.all (fun p => encode_key p.1 == some p.2)) = true := by
  refine ⟨?_, by decide, by decide, by decide⟩
  intro char m k h
  simp only [send_key_sched, h]

/-- C5 witness: the report layout at the concrete symbol "a". -/
theorem send_key_report_layout_witness :
    send_key_sched "a" =
      [⟨0, Target.kb, [0, 0x00, 0x04, 0, 0, 0, 0, 0]⟩,
       ⟨80, Target.kb, [0, 0, 0, 0, 0, 0, 0, 0]⟩] :=
  send_key_report_layout.1 "a" 0 0x04 (by decide)

/-- Shifting the starting index of the typing loop shifts every emission
time by a multiple of the inter-character interval. -/
theorem send_string_from_shift : ∀ (t : List Char) (i j : Nat),
    send_string_from (i + j) t =
      (send_string_from j t).map
        (fun e => ⟨i * 200 + e.time, e.target, e.payload⟩)
  | [], _, _ => rfl
  | c :: rest, i, j => by
      show char_emissions (i + j) c ++ send_string_from (i + j + 1) rest = _
      rw [show i + j + 1 = i + (j + 1) from by omega,
          send_string_from_shift rest i (j + 1)]
      simp only [send_string_from, List.map_append]
      congr 1
      unfold char_emissions
      rw [List.map_map]
      congr 1
      funext e
      show Emission.mk ((i + j) * 200 + e.time) _ _ = _
      simp only [Function.comp]
      congr 1
      omega

/-- The typing loop distributes over list append, continuing at the shifted
character index. -/
theorem send_string_from_append : ∀ (t1 : List Char) (i : Nat) (t2 : List Char),
    send_string_from i (t1 ++ t2) =
      send_string_from i t1 ++ send_string_from (i + t1.length) t2
  | [], i, t2 => by simp [send_string_from]
  | c :: rest, i, t2 => by
      show char_emissions i c ++ send_string_from (i + 1) (rest ++ t2) =
        (char_emissions i c ++ send_string_from (i + 1) rest) ++
          send_string_from (i + (rest.length + 1)) t2
      rw [send_string_from_append rest (i + 1) t2, ← List.append_assoc,
          show i + 1 + rest.length = i + (rest.length + 1) from by omega]

/-- Every emission of the typing loop started at index `i` fires no earlier
than `i * 200`. -/
theorem send_string_from_time_lb : ∀ (t : List Char) (i : Nat) (e : Emission),
    e ∈ send_string_from i t → i * 200 ≤ e.time
  | [], i, e => by simp [send_string_from]
  | c :: rest, i, e => by
      intro he
      rw [send_string_from, List.mem_append] at he
      rcases he with h | h
      · unfold char_emissions at h
        obtain ⟨e', _, rfl⟩ := List.mem_map.mp h
        simp only
        omega
      · have := send_string_from_time_lb rest (i + 1) e h
        omega

/-- The emission times of the typing loop are strictly increasing. -/
theorem send_string_from_times_pairwise : ∀ (t : List Char) (i : Nat),
    ((send_string_from i t).map Emission.time).Pairwise (fun a b => a < b)
  | [], i => by simp [send_string_from]
  | c :: rest, i => by
      rw [send_string_from, List.map_append, List.pairwise_append]
      refine ⟨?_, send_string_from_times_pairwise rest (i + 1), ?_⟩
      · cases h : encode_key (String.mk [c]) <;>
          simp [char_emissions, send_key_sched, h]
      · intro a ha b hb
        obtain ⟨e, he, rfl⟩ := List.mem_map.mp hb
        have hbound := send_string_from_time_lb rest (i + 1) e he
        cases h : encode_key (String.mk [c]) with
        | none => simp [char_emissions, send_key_sched, h] at ha
        | some p =>
            simp [char_emissions, send_key_sched, h] at ha
            rcases ha with rfl | rfl <;> omega

/-- C6: `send_string "hi"` enqueues exactly 2 key actions producing 4
emissions — active reports for h and i at 0 ms and 200 ms (one full
inter-character interval apart) with releases at 80 ms and 280 ms; for any
text the enqueued timeline is strictly increasing; and a character that
fails to encode contributes no emission while the characters after it keep
their original index-based slots (their times are not shifted forward). -/
theorem string_typing_timeline :
    send_string_sched "hi".toList =
      [⟨0, Target.kb, [0, 0, 0x0B, 0, 0, 0, 0, 0]⟩,
       ⟨80, Target.kb, [0, 0, 0, 0, 0, 0, 0, 0]⟩,
       ⟨200, Target.kb, [0, 0, 0x0C, 0, 0, 0, 0, 0]⟩,
       ⟨280, Target.kb, [0, 0, 0, 0, 0, 0, 0, 0]⟩] ∧
    (∀ text : List Char,
      ((send_string_sched text).map Emission.time).Pairwise
        (fun a b => a < b)) ∧
    (∀ (t1 t2 : List Char) (c : Char), encode_key (String.mk [c]) = none →
      send_string_sched (t1 ++ c :: t2) =
        send_string_sched t1 ++ (send_string_sched t2).map
          (fun e => ⟨(t1.length + 1) * 200 + e.time, e.target, e.payload⟩)) := by
  refine ⟨by decide, fun text => send_string_from_times_pairwise text 0, ?_⟩
  intro t1 t2 c h
  unfold send_string_sched
  rw [send_string_from_append t1 0 (c :: t2), Nat.zero_add]
  have hc : char_emissions t1.length c = [] := by
    unfold char_emissions send_key_sched
    rw [h]
    rfl
  rw [send_string_from, hc, List.nil_append,
      show t1.length + 1 = (t1.length + 1) + 0 from by omega,
      send_string_from_shift t2 (t1.length + 1) 0]

/-- C6 witness: a character that fails to encode (the NUL character) is
skipped without shifting the subsequent character's scheduled time. -/
theorem string_typing_timeline_witness :
    send_string_sched (['h'] ++ Char.ofNat 0 :: ['i']) =
      send_string_sched ['h'] ++ (send_string_sched ['i']).map
        (fun e => ⟨((['h'] : List Char).length + 1) * 200 + e.time,
                   e.target, e.payload⟩) :=
  string_typing_timeline.2.2 ['h'] ['i'] (Char.ofNat 0) (by decide)

/-- C8: unknown input is recovered locally.  A symbol `send_key` cannot
encode produces no emission at all, so no report characteristic's value
buffer changes; a command word outside the dispatcher's vocabulary is
answered with the `Unknown` usage diagnostic, changes no report buffer, and
does not quit the main loop. -/
theorem unknown_input_recovery :
    (∀ (char : String) (st : AppState), encode_key char = none →
      send_key_sched char = [] ∧
      (send_key_sched char).foldl applyEmission st = st) ∧
    (∀ (cmd : String) (rest : List String) (st : AppState),
      cmd ∉ ["send_key", "send_string", "click", "send_hid", "move",
             "scroll", "quit", "exit", "q", "help"] →
      handle_command (cmd :: rest) = Dispatch.unknown cmd ∧
      runDispatch st (handle_command (cmd :: rest)) = (st, false)) := by
  constructor
  · intro char st h
    constructor <;> simp [send_key_sched, h]
  · intro cmd rest st h
    simp only [List.mem_cons, List.not_mem_nil, or_false, not_or] at h
    obtain ⟨h1, h2, h3, h4, h5, h6, h7, h8, h9, h10⟩ := h
    have e : handle_command (cmd :: rest) = Dispatch.unknown cmd := by
      simp only [handle_command]
      rw [if_neg (fun hh => h1 hh.1), if_neg (fun hh => h2 hh.1), if_neg h3,
          if_neg (fun hh => h4 hh.1), if_neg (fun hh => h5 hh.1),
          if_neg (fun hh => h6 hh.1),
          if_neg (fun hh => hh.elim h7 (fun hh2 => hh2.elim h8 h9)),
          if_neg h10]
    rw [e]
    exact ⟨rfl, rfl⟩

/-- C8 witness: recovery at concrete unknown inputs. -/
theorem unknown_input_recovery_witness :
    send_key_sched "qq" = [] ∧
    handle_command ["frobnicate"] = Dispatch.unknown "frobnicate" ∧
    runDispatch ⟨[], [], []⟩ (handle_command ["frobnicate"]) =
      (⟨[], [], []⟩, false) :=
  ⟨(unknown_input_recovery.1 "qq" ⟨[], [], []⟩ (by decide)).1,
   (unknown_input_recovery.2 "frobnicate" [] ⟨[], [], []⟩ (by decide)).1,
   (unknown_input_recovery.2 "frobnicate" [] ⟨[], [], []⟩ (by decide)).2⟩

/-- C9 (counterexample): invoking the program with one-shot-style arguments
still selects the interactive server — `main` never parses `sys.argv`, so
the claimed one-shot command-line form does not exist. -/
theorem no_oneshot_counterexample :
    mainRunMode ["send_key", "a"] = RunMode.interactive ∧
    RunMode.interactive ≠ RunMode.oneShot :=
  ⟨rfl, by decide⟩

/-- C9 (amended): every invocation, with or without command-line arguments,
starts the long-running interactive server; the actions send_key,
send_string, send_hid, click, move and scroll are available only as
interactive prompt commands (alongside help and quit/exit/q), not as a
one-shot command-line form. -/
theorem interactive_only_cli :
    ∀ argv : List String,
      mainRunMode argv = RunMode.interactive ∧
      handle_command ["send_key", "a"] = Dispatch.act (send_key_sched "a") ∧
      handle_command ["send_string", "hi"] =
        Dispatch.act (send_string_sched "hi".toList) ∧
      handle_command ["send_hid", "2", "4"] =
        Dispatch.act (send_hid_sched 2 4) ∧
      handle_command ["click"] = Dispatch.act click_sched ∧
      handle_command ["move", "300", "0"] = Dispatch.act (move_mouse 300 0) ∧
      handle_command ["scroll", "3"] = Dispatch.act (scroll_sched 3) ∧
      handle_command ["quit"] = Dispatch.quit ∧
      handle_command ["exit"] = Dispatch.quit ∧
      handle_command ["help"] = Dispatch.help := by
  intro argv
  exact ⟨rfl, by decide, by decide, by decide, by decide, by decide,
    by decide, by decide, by decide, by decide⟩

/-- C9 witness: the amended statement at a concrete argument vector. -/
theorem interactive_only_cli_witness :
    mainRunMode ["move", "5", "0"] = RunMode.interactive :=
  (interactive_only_cli ["move", "5", "0"]).1

/-- C10: `send_key` lowercases its input before the named-key lookup, so
"ENTER", "Enter" and "enter" all resolve to the Enter usage id 0x28; every
uppercase letter misses the named-key table after lowercasing and resolves
through the shifted-character table to `(0x02, keycode of its lowercase
base)`. -/
theorem named_key_case_insensitive :
    encode_key "ENTER" = some (0, 0x28) ∧
    encode_key "Enter" = some (0, 0x28) ∧
    encode_key "enter" = some (0, 0x28) ∧
    ("ABCDEFGHIJKLMNOPQRSTUVWXYZ".toList.all (fun c =>
        (lookupStr SPECIAL_KEYS (strLower (String.mk [c]))).isNone &&
        (encode_key (String.mk [c]) ==
          some (0x02, 0x04 + (c.toNat - 0x41))))) = true := by
  exact ⟨by decide, by decide, by decide, by decide⟩

end BareMobile
